import Mathlib

/-!
Verification of the validated execution contract in
`src/api-template/src/index.ts` (`buildFunctionContext` / `execute`).

Shallow embedding choices:
* JavaScript values that flow through the contract are modelled by `Val`,
  a JSON-like inductive with an explicit `vNull` (TypeScript `null`).
  Object fields are a mutually defined `Fields` list.
* A zod schema is modelled by its `safeParse` behaviour: a total function
  `Val → Option Val`, `some d` meaning success with parsed data `d`
  (zod transforms mean the parsed data may differ from the input),
  `none` meaning failure.
* A thrown JavaScript value is modelled by `Thrown`: either an `Error`
  instance carrying a message, or any non-`Error` value.
* The handler (`execution`) is a function from the validated input to a
  `HandlerOutcome`: it either returns an `{ res, err }` envelope (both
  slots nullable) or throws; a rejected promise and a synchronous throw
  reach the same `catch` in the source, so both are `HandlerOutcome.throws`.
* `execute` is given twice: `executeTS` mirrors the source's control flow
  with exception propagation made explicit in `Except Thrown`, and
  `execute` is the total caller-facing function.  `executeTrace`
  additionally records the inputs the handler was invoked with.
-/

namespace Schematics

mutual

/-- JSON-like runtime values; `vNull` is TypeScript `null`. -/
inductive Val where
  | vNull : Val
  | vBool : Bool → Val
  | vNum : Int → Val
  | vStr : String → Val
  | vObj : Fields → Val
deriving DecidableEq, Repr

/-- Fields of a JavaScript object, in insertion order. -/
inductive Fields where
  | nil : Fields
  | cons : String → Val → Fields → Fields
deriving DecidableEq, Repr

end

/-- Property access `obj[key]`: the first field with the given key. -/
def Fields.lookup : Fields → String → Option Val
  | .nil, _ => none
  | .cons k v rest, key => if k = key then some v else rest.lookup key

/-- A zod schema seen through `safeParse`: `some` is
`{ success: true, data }`, `none` is `{ success: false }`. -/
def Schema : Type := Val → Option Val

/-- A thrown JavaScript value: an `Error` with its `message`, or anything
else (`e instanceof Error` false). -/
inductive Thrown where
  | errObj : String → Thrown
  | other : Thrown
deriving DecidableEq, Repr

/-- What `await execution({ input, error })` does: settle with an
`{ res, err }` envelope (slots nullable) or throw / reject. -/
inductive HandlerOutcome where
  | returns : Val → Val → HandlerOutcome
  | throws : Thrown → HandlerOutcome
deriving DecidableEq, Repr

/-- The caller-visible `{ res, err }` envelope. -/
structure Envelope where
  res : Val
  err : Val
deriving DecidableEq, Repr

/-- The `!== null` test used on `result.err`. -/
def isNull : Val → Bool
  | .vNull => true
  | _ => false

/-- `errorCreator` from the source: `(message) => ({ message }) as E`. -/
def errorCreator (message : String) : Val :=
  .vObj (.cons "message" (.vStr message) .nil)

/-- `e instanceof Error ? e.message : "Unknown error"` from the catch. -/
def thrownMessage : Thrown → String
  | .errObj m => m
  | .other => "Unknown error"

/-- The body of the `try` block of `execute`, after the handler has
settled with `outcome`: validate `err` or `res` against its schema, throw
on non-conformance.  An `Except.error` is a value propagating out of the
`try` block towards the `catch`. -/
def tryBody (responseSchema errorSchema : Schema) (outcome : HandlerOutcome) :
    Except Thrown Envelope :=
  match outcome with
  | .throws t => .error t
  | .returns r e =>
    if isNull e then
      match responseSchema r with
      | none => .error (.errObj "Execution returned an invalid response object")
      | some d => .ok ⟨d, .vNull⟩
    else
      match errorSchema e with
      | none => .error (.errObj "Execution returned an invalid error object")
      | some d => .ok ⟨.vNull, d⟩

/-- The caller-facing `execute`: total, returns an envelope. -/
def execute (inputSchema responseSchema errorSchema : Schema)
    (execution : Val → HandlerOutcome) (input : Val) : Envelope :=
  match inputSchema input with
  | none => ⟨.vNull, errorCreator "Invalid input"⟩
  | some parsed =>
    match tryBody responseSchema errorSchema (execution parsed) with
    | .ok env => env
    | .error e => ⟨.vNull, errorCreator (thrownMessage e)⟩

/-- `execute` with the exception channel explicit: an `Except.error`
result would be a rejected promise escaping `execute`.  The `catch`
clause converts every `Except.error` of the `try` body into an envelope;
nothing outside the `try` can throw (the input-validation branch only
builds an object literal). -/
def executeTS (inputSchema responseSchema errorSchema : Schema)
    (execution : Val → HandlerOutcome) (input : Val) : Except Thrown Envelope :=
  match inputSchema input with
  | none => .ok ⟨.vNull, errorCreator "Invalid input"⟩
  | some parsed =>
    match tryBody responseSchema errorSchema (execution parsed) with
    | .ok env => .ok env
    | .error e => .ok ⟨.vNull, errorCreator (thrownMessage e)⟩

/-- `execute` instrumented with the list of validated inputs the handler
is invoked with (the call-counting stub handler of the spec). -/
def executeTrace (inputSchema responseSchema errorSchema : Schema)
    (execution : Val → HandlerOutcome) (input : Val) : Envelope × List Val :=
  match inputSchema input with
  | none => (⟨.vNull, errorCreator "Invalid input"⟩, [])
  | some parsed =>
    (match tryBody responseSchema errorSchema (execution parsed) with
      | .ok env => env
      | .error e => ⟨.vNull, errorCreator (thrownMessage e)⟩, [parsed])

/-- Argument record of `buildFunctionContext`. -/
structure BuildFunctionContextReq where
  inputSchema : Schema
  responseSchema : Schema
  errorSchema : Schema
  execution : Val → HandlerOutcome

/-- The `input: { validator }` / `response: { validator }` wrappers. -/
structure ValidatorBox where
  validator : Schema

/-- Result record of `buildFunctionContext`. -/
structure BuildFunctionContextResult where
  input : ValidatorBox
  response : ValidatorBox
  execute : Val → Envelope

/-- `buildFunctionContext` from the source: bind the three schemas and
the handler, expose the input and response validators and `execute`. -/
def buildFunctionContext (params : BuildFunctionContextReq) :
    BuildFunctionContextResult where
  input := ⟨params.inputSchema⟩
  response := ⟨params.responseSchema⟩
  execute := execute params.inputSchema params.responseSchema
    params.errorSchema params.execution

/-! ### The example contract `foo` from the source -/

/-- `z.object({ id: z.number() })`: requires an object whose `id` field is
a number; parsed data keeps only the declared key (zod strips unknown
keys by default). -/
def fooInputSchema : Schema := fun v =>
  match v with
  | .vObj fields =>
    match fields.lookup "id" with
    | some (.vNum n) => some (.vObj (.cons "id" (.vNum n) .nil))
    | _ => none
  | _ => none

/-- `z.object({ id: z.number(), name: z.string() })`, unknown keys
stripped. -/
def fooResponseSchema : Schema := fun v =>
  match v with
  | .vObj fields =>
    match fields.lookup "id", fields.lookup "name" with
    | some (.vNum n), some (.vStr s) =>
      some (.vObj (.cons "id" (.vNum n) (.cons "name" (.vStr s) .nil)))
    | _, _ => none
  | _ => none

/-- `z.object({ message: z.string() })`, unknown keys stripped. -/
def fooErrorSchema : Schema := fun v =>
  match v with
  | .vObj fields =>
    match fields.lookup "message" with
    | some (.vStr s) => some (.vObj (.cons "message" (.vStr s) .nil))
    | _ => none
  | _ => none

/-- The example handler: error `"Invalid ID"` for a negative id,
`{ id, name: "Test" }` otherwise.  It only ever receives output of
`fooInputSchema`, which is an object with a numeric `id`; on any other
value the property access pattern has no number to compare and the
fallback is irrelevant (modelled as throwing a non-`Error`). -/
def fooExecution : Val → HandlerOutcome := fun input =>
  match input with
  | .vObj fields =>
    match fields.lookup "id" with
    | some (.vNum n) =>
      if n < 0 then .returns .vNull (errorCreator "Invalid ID")
      else .returns (.vObj (.cons "id" (.vNum n)
        (.cons "name" (.vStr "Test") .nil))) .vNull
    | _ => .throws .other
  | _ => .throws .other

/-- The example contract built at the bottom of the source file. -/
def foo : BuildFunctionContextResult :=
  buildFunctionContext
    { inputSchema := fooInputSchema
      responseSchema := fooResponseSchema
      errorSchema := fooErrorSchema
      execution := fooExecution }

/-! ### Auxiliary contracts used to exercise the claims -/

/-- `z.any()`: accepts every value unchanged. -/
def anySchema : Schema := fun v => some v

/-- `z.null()`: accepts exactly `null`, parsed data is `null`. -/
def nullSchema : Schema := fun v => if isNull v then some .vNull else none

/-- An error schema demanding a numeric `code` field (a legitimate
integrator choice the contract claims to support); it rejects the bare
`errorCreator` shape. -/
def codeErrorSchema : Schema := fun v =>
  match v with
  | .vObj fields =>
    match fields.lookup "code" with
    | some (.vNum n) => some (.vObj (.cons "code" (.vNum n) .nil))
    | _ => none
  | _ => none

/-- A handler that resolves `{ res: null, err: null }`. -/
def nullExecution : Val → HandlerOutcome := fun _ => .returns .vNull .vNull

/-- A handler whose declared error is not an object (fails the
conventional error schema). -/
def badErrExecution : Val → HandlerOutcome := fun _ =>
  .returns .vNull (.vStr "bad")

/-- The spec's handler that resolves
`{ value: "not-an-object", error: null }`. -/
def badResExecution : Val → HandlerOutcome := fun _ =>
  .returns (.vStr "not-an-object") .vNull

/-- A handler that fills BOTH slots: a well-formed success value and a
well-formed error value. -/
def bothSlotsExecution : Val → HandlerOutcome := fun _ =>
  .returns (.vObj (.cons "id" (.vNum 5) (.cons "name" (.vStr "X") .nil)))
    (errorCreator "boom")

/-- The spec's handler that throws `new Error("boom")` unconditionally. -/
def boomExecution : Val → HandlerOutcome := fun _ => .throws (.errObj "boom")

/-- A handler that throws a non-`Error` value. -/
def weirdThrowExecution : Val → HandlerOutcome := fun _ => .throws .other

/-- A handler whose success value carries an unknown `extra` key that
`fooResponseSchema` strips during parsing. -/
def extraKeyExecution : Val → HandlerOutcome := fun _ =>
  .returns (.vObj (.cons "id" (.vNum 2) (.cons "name" (.vStr "Test")
    (.cons "extra" (.vBool true) .nil)))) .vNull

/-! ### Helper lemmas -/

theorem isNull_iff (v : Val) : isNull v = true ↔ v = .vNull := by
  cases v <;> simp [isNull]

theorem errorCreator_ne_null (m : String) : errorCreator m ≠ .vNull := by
  simp [errorCreator]

/-- Reduction of `execute` once input validation has succeeded. -/
theorem execute_of_parsed (inputSchema responseSchema errorSchema : Schema)
    (execution : Val → HandlerOutcome) (input parsed : Val)
    (h : inputSchema input = some parsed) :
    execute inputSchema responseSchema errorSchema execution input =
      match tryBody responseSchema errorSchema (execution parsed) with
      | .ok env => env
      | .error e => ⟨.vNull, errorCreator (thrownMessage e)⟩ := by
  unfold execute
  rw [h]

/-- Reduction of `execute` when input validation fails. -/
theorem execute_of_invalid (inputSchema responseSchema errorSchema : Schema)
    (execution : Val → HandlerOutcome) (input : Val)
    (h : inputSchema input = none) :
    execute inputSchema responseSchema errorSchema execution input =
      ⟨.vNull, errorCreator "Invalid input"⟩ := by
  unfold execute
  rw [h]

/-- `fooResponseSchema` never parses a value to `null`. -/
theorem fooResponseSchema_not_null (v d : Val) (h : fooResponseSchema v = some d) :
    d ≠ .vNull := by
  unfold fooResponseSchema at h
  repeat' split at h
  all_goals cases h
  all_goals simp

/-- `fooErrorSchema` never parses a value to `null`. -/
theorem fooErrorSchema_not_null (v d : Val) (h : fooErrorSchema v = some d) :
    d ≠ .vNull := by
  unfold fooErrorSchema at h
  repeat' split at h
  all_goals cases h
  all_goals simp

/-- `fooResponseSchema`'s parsed data re-validates. -/
theorem fooResponseSchema_idem (v d : Val) (h : fooResponseSchema v = some d) :
    (fooResponseSchema d).isSome := by
  unfold fooResponseSchema at h ⊢
  repeat' split at h
  all_goals cases h
  all_goals simp [Fields.lookup]

/-- `fooErrorSchema`'s parsed data re-validates. -/
theorem fooErrorSchema_idem (v d : Val) (h : fooErrorSchema v = some d) :
    (fooErrorSchema d).isSome := by
  unfold fooErrorSchema at h ⊢
  repeat' split at h
  all_goals cases h
  all_goals simp [Fields.lookup]

/-- `fooErrorSchema` accepts every output of the error constructor. -/
theorem fooErrorSchema_accepts_message (m : String) :
    (fooErrorSchema (errorCreator m)).isSome := by
  simp [fooErrorSchema, errorCreator, Fields.lookup]

/-- Exhaustive case analysis of `execute`: invalid input, validated
success, validated handler error, or the catch branch (which also covers
both invalid-output faults). -/
theorem execute_cases (inputSchema responseSchema errorSchema : Schema)
    (execution : Val → HandlerOutcome) (input : Val) :
    (execute inputSchema responseSchema errorSchema execution input =
        ⟨.vNull, errorCreator "Invalid input"⟩ ∧ inputSchema input = none) ∨
    (∃ parsed r e d, inputSchema input = some parsed ∧
        execution parsed = .returns r e ∧ isNull e = true ∧
        responseSchema r = some d ∧
        execute inputSchema responseSchema errorSchema execution input = ⟨d, .vNull⟩) ∨
    (∃ parsed r e d, inputSchema input = some parsed ∧
        execution parsed = .returns r e ∧ isNull e = false ∧
        errorSchema e = some d ∧
        execute inputSchema responseSchema errorSchema execution input = ⟨.vNull, d⟩) ∨
    (∃ m, execute inputSchema responseSchema errorSchema execution input =
        ⟨.vNull, errorCreator m⟩) := by
  cases h : inputSchema input with
  | none =>
    exact Or.inl ⟨execute_of_invalid _ _ _ _ _ h, rfl⟩
  | some parsed =>
    have hx := execute_of_parsed inputSchema responseSchema errorSchema execution input parsed h
    cases ho : execution parsed with
    | throws t =>
      refine Or.inr (Or.inr (Or.inr ⟨thrownMessage t, ?_⟩))
      rw [hx, ho]
      rfl
    | returns r e =>
      cases he : isNull e with
      | true =>
        cases hr : responseSchema r with
        | none =>
          refine Or.inr (Or.inr (Or.inr
            ⟨"Execution returned an invalid response object", ?_⟩))
          rw [hx, ho]
          simp [tryBody, he, hr, thrownMessage]
        | some d =>
          refine Or.inr (Or.inl ⟨parsed, r, e, d, rfl, ho, he, hr, ?_⟩)
          rw [hx, ho]
          simp [tryBody, he, hr]
      | false =>
        cases hr : errorSchema e with
        | none =>
          refine Or.inr (Or.inr (Or.inr
            ⟨"Execution returned an invalid error object", ?_⟩))
          rw [hx, ho]
          simp [tryBody, he, hr, thrownMessage]
        | some d =>
          refine Or.inr (Or.inr (Or.inl ⟨parsed, r, e, d, rfl, ho, he, hr, ?_⟩))
          rw [hx, ho]
          simp [tryBody, he, hr]

/-!
### C1 — totality of `execute`

`executeTS` makes the promise-rejection channel explicit; the theorem
states it always lands in `Except.ok`, with payload the envelope the
total function `execute` computes.
-/

/-- C1: for every raw input and every handler behaviour (returning
normally, returning a malformed envelope, or throwing synchronously or
asynchronously), `execute` resolves to an `{ res, err }` envelope; it
never throws and its promise never rejects. -/
theorem execute_never_rejects (inputSchema responseSchema errorSchema : Schema)
    (execution : Val → HandlerOutcome) (input : Val) :
    executeTS inputSchema responseSchema errorSchema execution input =
      Except.ok (execute inputSchema responseSchema errorSchema execution input) := by
  unfold executeTS execute
  cases h : inputSchema input with
  | none => rfl
  | some parsed =>
    cases h2 : tryBody responseSchema errorSchema (execution parsed) with
    | ok env => simp [h2]
    | error e => simp [h2]

/-!
### C2 — mutual exclusivity of the two slots

The claim fails as stated: the source only ever places `null` literally
in one slot and the OTHER slot receives schema-parsed data, which is
itself `null` whenever the schema accepts `null` (e.g. `z.null()` or
`z.any()`).  A handler resolving `{ res: null, err: null }` against a
null-accepting success schema makes `execute` return both slots null.
"Never both non-null" does hold, and "exactly one non-null" holds for
schemas whose parsed data is never `null`.
-/

/-- C2 counterexample: with `z.any()` input, a `z.null()` success schema
and a handler resolving `{ res: null, err: null }`, `execute` resolves
with BOTH slots null, so "exactly one of res/err is non-null" is false. -/
theorem execute_both_slots_null :
    execute anySchema nullSchema fooErrorSchema nullExecution .vNull =
      ⟨.vNull, .vNull⟩ ∧
    ¬ (((execute anySchema nullSchema fooErrorSchema nullExecution .vNull).res
          = .vNull ∧
        (execute anySchema nullSchema fooErrorSchema nullExecution .vNull).err
          ≠ .vNull) ∨
       ((execute anySchema nullSchema fooErrorSchema nullExecution .vNull).res
          ≠ .vNull ∧
        (execute anySchema nullSchema fooErrorSchema nullExecution .vNull).err
          = .vNull)) := by
  constructor
  · rfl
  · decide

/-- C2 (amended): unconditionally, `execute` never resolves with both
slots non-null (one slot is always the literal `null`); and provided the
response schema and the error schema never parse a value to `null`,
exactly one of res/err is non-null. -/
theorem execute_mutual_exclusivity
    (inputSchema responseSchema errorSchema : Schema)
    (execution : Val → HandlerOutcome) (input : Val) :
    ((execute inputSchema responseSchema errorSchema execution input).res = .vNull ∨
     (execute inputSchema responseSchema errorSchema execution input).err = .vNull) ∧
    ((∀ v d, responseSchema v = some d → d ≠ .vNull) →
     (∀ v d, errorSchema v = some d → d ≠ .vNull) →
     (((execute inputSchema responseSchema errorSchema execution input).res = .vNull ∧
       (execute inputSchema responseSchema errorSchema execution input).err ≠ .vNull) ∨
      ((execute inputSchema responseSchema errorSchema execution input).res ≠ .vNull ∧
       (execute inputSchema responseSchema errorSchema execution input).err = .vNull))) := by
  rcases execute_cases inputSchema responseSchema errorSchema execution input with
    ⟨hq, _⟩ | ⟨p, r, e, d, _, _, _, hpr, hq⟩ | ⟨p, r, e, d, _, _, _, hpe, hq⟩ | ⟨m, hq⟩
  · rw [hq]
    exact ⟨Or.inl rfl, fun _ _ => Or.inl ⟨rfl, errorCreator_ne_null _⟩⟩
  · rw [hq]
    exact ⟨Or.inr rfl, fun hr _ => Or.inr ⟨hr _ _ hpr, rfl⟩⟩
  · rw [hq]
    exact ⟨Or.inl rfl, fun _ he => Or.inl ⟨rfl, he _ _ hpe⟩⟩
  · rw [hq]
    exact ⟨Or.inl rfl, fun _ _ => Or.inl ⟨rfl, errorCreator_ne_null _⟩⟩

/-- Witness for C2's amended theorem at the example contract `foo`: both
the unconditional never-both-non-null conjunct and the exclusivity
conjunct with its schema hypotheses discharged. -/
theorem execute_mutual_exclusivity_witness :
    ((execute fooInputSchema fooResponseSchema fooErrorSchema fooExecution
        (.vObj (.cons "id" (.vNum 1) .nil))).res = .vNull ∨
     (execute fooInputSchema fooResponseSchema fooErrorSchema fooExecution
        (.vObj (.cons "id" (.vNum 1) .nil))).err = .vNull) ∧
    (((execute fooInputSchema fooResponseSchema fooErrorSchema fooExecution
        (.vObj (.cons "id" (.vNum 1) .nil))).res = .vNull ∧
      (execute fooInputSchema fooResponseSchema fooErrorSchema fooExecution
        (.vObj (.cons "id" (.vNum 1) .nil))).err ≠ .vNull) ∨
     ((execute fooInputSchema fooResponseSchema fooErrorSchema fooExecution
        (.vObj (.cons "id" (.vNum 1) .nil))).res ≠ .vNull ∧
      (execute fooInputSchema fooResponseSchema fooErrorSchema fooExecution
        (.vObj (.cons "id" (.vNum 1) .nil))).err = .vNull)) :=
  ⟨(execute_mutual_exclusivity fooInputSchema fooResponseSchema fooErrorSchema
      fooExecution (.vObj (.cons "id" (.vNum 1) .nil))).1,
   (execute_mutual_exclusivity fooInputSchema fooResponseSchema fooErrorSchema
      fooExecution (.vObj (.cons "id" (.vNum 1) .nil))).2
      (fun v d h => fooResponseSchema_not_null v d h)
      (fun v d h => fooErrorSchema_not_null v d h)⟩

/-!
### C3 — schema conformance of the non-null slot

The claim fails as stated for arbitrary error schemas: the
input-validation failure error and the catch-branch errors are built by
a blind `as E` cast of `{ message }` and are never validated, so an
error schema that rejects the bare message shape (here: one demanding a
numeric `code`) receives a non-conformant error.  Conformance holds when
the error schema accepts every error-constructor output and both output
schemas re-validate their own parsed data.
-/

/-- C3 counterexample: with an error schema demanding a numeric `code`
field, the input-validation failure error `{ message: "Invalid input" }`
does not validate against the error schema. -/
theorem execute_error_schema_violated :
    (execute fooInputSchema fooResponseSchema codeErrorSchema fooExecution
        (.vStr "oops")).err ≠ .vNull ∧
    codeErrorSchema (execute fooInputSchema fooResponseSchema codeErrorSchema
        fooExecution (.vStr "oops")).err = none := by
  decide

/-- C3 (amended): provided the error schema accepts every output of the
error constructor and each output schema accepts its own parsed data,
the non-null slot of every resolved envelope validates against its
respective schema. -/
theorem execute_schema_conformance
    (inputSchema responseSchema errorSchema : Schema)
    (execution : Val → HandlerOutcome) (input : Val)
    (hmsg : ∀ m, (errorSchema (errorCreator m)).isSome)
    (hr : ∀ v d, responseSchema v = some d → (responseSchema d).isSome)
    (he : ∀ v d, errorSchema v = some d → (errorSchema d).isSome) :
    ((execute inputSchema responseSchema errorSchema execution input).res ≠ .vNull →
      (responseSchema
        (execute inputSchema responseSchema errorSchema execution input).res).isSome) ∧
    ((execute inputSchema responseSchema errorSchema execution input).err ≠ .vNull →
      (errorSchema
        (execute inputSchema responseSchema errorSchema execution input).err).isSome) := by
  rcases execute_cases inputSchema responseSchema errorSchema execution input with
    ⟨hq, _⟩ | ⟨p, r, e, d, _, _, _, hpr, hq⟩ | ⟨p, r, e, d, _, _, _, hpe, hq⟩ | ⟨m, hq⟩
  · rw [hq]
    exact ⟨fun hc => absurd rfl hc, fun _ => hmsg _⟩
  · rw [hq]
    exact ⟨fun _ => hr _ _ hpr, fun hc => absurd rfl hc⟩
  · rw [hq]
    exact ⟨fun hc => absurd rfl hc, fun _ => he _ _ hpe⟩
  · rw [hq]
    exact ⟨fun hc => absurd rfl hc, fun _ => hmsg _⟩

/-- Witness for C3's amended theorem at the example contract `foo`. -/
theorem execute_schema_conformance_witness :
    ((execute fooInputSchema fooResponseSchema fooErrorSchema fooExecution
        (.vObj (.cons "id" (.vNum (-1)) .nil))).res ≠ .vNull →
      (fooResponseSchema (execute fooInputSchema fooResponseSchema fooErrorSchema
        fooExecution (.vObj (.cons "id" (.vNum (-1)) .nil))).res).isSome) ∧
    ((execute fooInputSchema fooResponseSchema fooErrorSchema fooExecution
        (.vObj (.cons "id" (.vNum (-1)) .nil))).err ≠ .vNull →
      (fooErrorSchema (execute fooInputSchema fooResponseSchema fooErrorSchema
        fooExecution (.vObj (.cons "id" (.vNum (-1)) .nil))).err).isSome) :=
  execute_schema_conformance fooInputSchema fooResponseSchema fooErrorSchema
    fooExecution (.vObj (.cons "id" (.vNum (-1)) .nil))
    (fun m => fooErrorSchema_accepts_message m)
    (fun v d h => fooResponseSchema_idem v d h)
    (fun v d h => fooErrorSchema_idem v d h)

/-!
### C9 — the example contract's two documented calls
-/

/-- C9: for the example contract `foo`, `execute` maps `{ id: 1 }` to
`{ res: { id: 1, name: "Test" }, err: null }` and `{ id: -1 }` to
`{ res: null, err: { message: "Invalid ID" } }`. -/
theorem foo_example_calls :
    foo.execute (.vObj (.cons "id" (.vNum 1) .nil)) =
      ⟨.vObj (.cons "id" (.vNum 1) (.cons "name" (.vStr "Test") .nil)), .vNull⟩ ∧
    foo.execute (.vObj (.cons "id" (.vNum (-1)) .nil)) =
      ⟨.vNull, .vObj (.cons "message" (.vStr "Invalid ID") .nil)⟩ := by
  constructor <;> rfl

/-!
### C4 — input-validation short-circuit and single handler invocation
-/

/-- C4: the trace of handler invocations is empty when `rawInput` fails
the input schema (and the envelope is the "Invalid input" error), and is
exactly one call with the parsed input when it passes; the instrumented
function computes the same envelope as `execute`. -/
theorem execute_input_validation_short_circuit
    (inputSchema responseSchema errorSchema : Schema)
    (execution : Val → HandlerOutcome) (input : Val) :
    ((executeTrace inputSchema responseSchema errorSchema execution input).1 =
      execute inputSchema responseSchema errorSchema execution input) ∧
    (inputSchema input = none →
      executeTrace inputSchema responseSchema errorSchema execution input =
        (⟨.vNull, errorCreator "Invalid input"⟩, [])) ∧
    (∀ parsed, inputSchema input = some parsed →
      (executeTrace inputSchema responseSchema errorSchema execution input).2 =
        [parsed]) := by
  unfold executeTrace execute
  cases h : inputSchema input with
  | none =>
    refine ⟨rfl, fun _ => rfl, ?_⟩
    intro p hp
    exact absurd hp (by simp)
  | some parsed =>
    refine ⟨rfl, ?_, ?_⟩
    · intro hc
      exact absurd hc (by simp)
    · intro p hp
      injection hp with h2
      subst h2
      rfl

/-- Witness for C4 at the example contract `foo`: the malformed input of
the spec produces no handler call; `{ id: 1 }` produces exactly one. -/
theorem execute_input_validation_short_circuit_witness :
    executeTrace fooInputSchema fooResponseSchema fooErrorSchema fooExecution
        (.vObj (.cons "id" (.vStr "not-a-number") .nil)) =
      (⟨.vNull, errorCreator "Invalid input"⟩, []) ∧
    (executeTrace fooInputSchema fooResponseSchema fooErrorSchema fooExecution
        (.vObj (.cons "id" (.vNum 1) .nil))).2 =
      [.vObj (.cons "id" (.vNum 1) .nil)] :=
  ⟨(execute_input_validation_short_circuit fooInputSchema fooResponseSchema
      fooErrorSchema fooExecution
      (.vObj (.cons "id" (.vStr "not-a-number") .nil))).2.1 rfl,
   (execute_input_validation_short_circuit fooInputSchema fooResponseSchema
      fooErrorSchema fooExecution (.vObj (.cons "id" (.vNum 1) .nil))).2.2
      (.vObj (.cons "id" (.vNum 1) .nil)) rfl⟩

/-!
### C5 — the two invalid-output fault messages
-/

/-- C5: a handler error failing the error schema yields the
"Execution returned an invalid error object" envelope; a handler success
value failing the success schema yields the
"Execution returned an invalid response object" envelope; the two
messages differ from each other and from "Invalid input". -/
theorem execute_invalid_output_messages
    (inputSchema responseSchema errorSchema : Schema)
    (execution : Val → HandlerOutcome) (input parsed r e : Val)
    (hin : inputSchema input = some parsed)
    (hout : execution parsed = .returns r e) :
    (e ≠ .vNull → errorSchema e = none →
      execute inputSchema responseSchema errorSchema execution input =
        ⟨.vNull, errorCreator "Execution returned an invalid error object"⟩) ∧
    (e = .vNull → responseSchema r = none →
      execute inputSchema responseSchema errorSchema execution input =
        ⟨.vNull, errorCreator "Execution returned an invalid response object"⟩) ∧
    (("Execution returned an invalid error object" : String) ≠
        "Execution returned an invalid response object" ∧
      ("Invalid input" : String) ≠ "Execution returned an invalid error object" ∧
      ("Invalid input" : String) ≠ "Execution returned an invalid response object") := by
  have hx := execute_of_parsed inputSchema responseSchema errorSchema execution
    input parsed hin
  refine ⟨?_, ?_, by decide⟩
  · intro hne hval
    have hnull : isNull e = false := by cases e <;> simp_all [isNull]
    rw [hx, hout]
    simp [tryBody, hnull, hval, thrownMessage]
  · intro hnull hval
    subst hnull
    rw [hx, hout]
    simp [tryBody, isNull, hval, thrownMessage]

/-- Witness for C5: a handler whose declared error is the string
`"bad"` and the spec's handler resolving `{ res: "not-an-object",
err: null }`, both against the conventional schemas. -/
theorem execute_invalid_output_messages_witness :
    execute anySchema fooResponseSchema fooErrorSchema badErrExecution .vNull =
      ⟨.vNull, errorCreator "Execution returned an invalid error object"⟩ ∧
    execute anySchema fooResponseSchema fooErrorSchema badResExecution .vNull =
      ⟨.vNull, errorCreator "Execution returned an invalid response object"⟩ :=
  ⟨(execute_invalid_output_messages anySchema fooResponseSchema fooErrorSchema
      badErrExecution .vNull .vNull .vNull (.vStr "bad") rfl rfl).1
      (by decide) rfl,
   (execute_invalid_output_messages anySchema fooResponseSchema fooErrorSchema
      badResExecution .vNull .vNull (.vStr "not-an-object") .vNull rfl rfl).2.1
      rfl rfl⟩

/-!
### C6 — a non-null handler error is authoritative
-/

/-- C6: when the handler's `err` is non-null, the success schema is never
consulted (the result is the same for any two response schemas), the
returned `res` is null, and the error-schema-parsed `err` is returned. -/
theorem execute_error_authoritative
    (inputSchema rs1 rs2 errorSchema : Schema)
    (execution : Val → HandlerOutcome) (input parsed r e : Val)
    (hin : inputSchema input = some parsed)
    (hout : execution parsed = .returns r e)
    (hne : e ≠ .vNull) :
    (execute inputSchema rs1 errorSchema execution input =
      execute inputSchema rs2 errorSchema execution input) ∧
    (execute inputSchema rs1 errorSchema execution input).res = .vNull ∧
    (∀ d, errorSchema e = some d →
      execute inputSchema rs1 errorSchema execution input = ⟨.vNull, d⟩) := by
  have hnull : isNull e = false := by cases e <;> simp_all [isNull]
  have hx1 := execute_of_parsed inputSchema rs1 errorSchema execution input parsed hin
  have hx2 := execute_of_parsed inputSchema rs2 errorSchema execution input parsed hin
  rw [hx1, hx2, hout]
  refine ⟨by simp [tryBody, hnull], ?_, ?_⟩
  · cases hv : errorSchema e <;> simp [tryBody, hnull, hv]
  · intro d hd
    simp [tryBody, hnull, hd]

/-- Witness for C6: a handler filling BOTH slots with well-formed values;
the error wins, for two different response schemas. -/
theorem execute_error_authoritative_witness :
    (execute anySchema fooResponseSchema fooErrorSchema bothSlotsExecution .vNull =
      execute anySchema nullSchema fooErrorSchema bothSlotsExecution .vNull) ∧
    (execute anySchema fooResponseSchema fooErrorSchema bothSlotsExecution
      .vNull).res = .vNull ∧
    execute anySchema fooResponseSchema fooErrorSchema bothSlotsExecution .vNull =
      ⟨.vNull, errorCreator "boom"⟩ :=
  ⟨(execute_error_authoritative anySchema fooResponseSchema nullSchema
      fooErrorSchema bothSlotsExecution .vNull .vNull
      (.vObj (.cons "id" (.vNum 5) (.cons "name" (.vStr "X") .nil)))
      (errorCreator "boom") rfl rfl (errorCreator_ne_null "boom")).1,
   (execute_error_authoritative anySchema fooResponseSchema nullSchema
      fooErrorSchema bothSlotsExecution .vNull .vNull
      (.vObj (.cons "id" (.vNum 5) (.cons "name" (.vStr "X") .nil)))
      (errorCreator "boom") rfl rfl (errorCreator_ne_null "boom")).2.1,
   (execute_error_authoritative anySchema fooResponseSchema nullSchema
      fooErrorSchema bothSlotsExecution .vNull .vNull
      (.vObj (.cons "id" (.vNum 5) (.cons "name" (.vStr "X") .nil)))
      (errorCreator "boom") rfl rfl (errorCreator_ne_null "boom")).2.2
      (errorCreator "boom") rfl⟩

/-!
### C7 — trapped exceptions become envelopes with the thrown message
-/

/-- C7: a handler that throws an `Error` yields that error's own message;
a handler that throws a non-`Error` value yields "Unknown error". -/
theorem execute_exception_to_envelope
    (inputSchema responseSchema errorSchema : Schema)
    (execution : Val → HandlerOutcome) (input parsed : Val) (t : Thrown)
    (hin : inputSchema input = some parsed)
    (hout : execution parsed = .throws t) :
    (∀ m, t = .errObj m →
      execute inputSchema responseSchema errorSchema execution input =
        ⟨.vNull, errorCreator m⟩) ∧
    (t = .other →
      execute inputSchema responseSchema errorSchema execution input =
        ⟨.vNull, errorCreator "Unknown error"⟩) := by
  have hx := execute_of_parsed inputSchema responseSchema errorSchema execution
    input parsed hin
  rw [hx, hout]
  exact ⟨fun m hm => by subst hm; rfl, fun hm => by subst hm; rfl⟩

/-- Witness for C7: the spec's `new Error("boom")` thrower and a handler
throwing a non-`Error` value. -/
theorem execute_exception_to_envelope_witness :
    execute anySchema fooResponseSchema fooErrorSchema boomExecution .vNull =
      ⟨.vNull, errorCreator "boom"⟩ ∧
    execute anySchema fooResponseSchema fooErrorSchema weirdThrowExecution .vNull =
      ⟨.vNull, errorCreator "Unknown error"⟩ :=
  ⟨(execute_exception_to_envelope anySchema fooResponseSchema fooErrorSchema
      boomExecution .vNull .vNull (.errObj "boom") rfl rfl).1 "boom" rfl,
   (execute_exception_to_envelope anySchema fooResponseSchema fooErrorSchema
      weirdThrowExecution .vNull .vNull .other rfl rfl).2 rfl⟩

/-!
### C8 — the context exposes the construction-time schemas

The embedding is pure: the record returned by `buildFunctionContext` is
an immutable value, so exposing the bound schemas unchanged across all
calls is the statement that its fields equal the supplied schemas and
that `execute` is the pure function of those same schemas.
-/

/-- C8: `buildFunctionContext` exposes the supplied input schema as
`input.validator`, the supplied success schema as `response.validator`,
and an `execute` whose behaviour on every raw input is exactly `execute`
of the construction-time schemas and handler (no call mutates them). -/
theorem buildFunctionContext_exposes_bound_schemas
    (params : BuildFunctionContextReq) :
    (buildFunctionContext params).input.validator = params.inputSchema ∧
    (buildFunctionContext params).response.validator = params.responseSchema ∧
    ∀ raw, (buildFunctionContext params).execute raw =
      execute params.inputSchema params.responseSchema params.errorSchema
        params.execution raw :=
  ⟨rfl, rfl, fun _ => rfl⟩

/-!
### C10 — the parsed (normalized) data is what the caller sees
-/

/-- C10: when the handler's envelope passes output validation, the
caller receives the schema-parsed data (`parsedErr.data` on the error
branch, `parsedRes.data` on the success branch), not the handler's
original object. -/
theorem execute_returns_parsed_data
    (inputSchema responseSchema errorSchema : Schema)
    (execution : Val → HandlerOutcome) (input parsed r e : Val)
    (hin : inputSchema input = some parsed)
    (hout : execution parsed = .returns r e) :
    (∀ d, e ≠ .vNull → errorSchema e = some d →
      execute inputSchema responseSchema errorSchema execution input =
        ⟨.vNull, d⟩) ∧
    (∀ d, e = .vNull → responseSchema r = some d →
      execute inputSchema responseSchema errorSchema execution input =
        ⟨d, .vNull⟩) := by
  have hx := execute_of_parsed inputSchema responseSchema errorSchema execution
    input parsed hin
  rw [hx, hout]
  constructor
  · intro d hne hd
    have hnull : isNull e = false := by cases e <;> simp_all [isNull]
    simp [tryBody, hnull, hd]
  · intro d hnull hd
    subst hnull
    simp [tryBody, isNull, hd]

/-- Witness for C10: a handler success value carrying an unknown `extra`
key; the caller sees the stripped, normalized object, which differs from
the handler's original. -/
theorem execute_returns_parsed_data_witness :
    execute anySchema fooResponseSchema fooErrorSchema extraKeyExecution .vNull =
      ⟨.vObj (.cons "id" (.vNum 2) (.cons "name" (.vStr "Test") .nil)), .vNull⟩ ∧
    (execute anySchema fooResponseSchema fooErrorSchema extraKeyExecution
        .vNull).res ≠
      .vObj (.cons "id" (.vNum 2) (.cons "name" (.vStr "Test")
        (.cons "extra" (.vBool true) .nil))) :=
  ⟨(execute_returns_parsed_data anySchema fooResponseSchema fooErrorSchema
      extraKeyExecution .vNull .vNull
      (.vObj (.cons "id" (.vNum 2) (.cons "name" (.vStr "Test")
        (.cons "extra" (.vBool true) .nil)))) .vNull rfl rfl).2
      (.vObj (.cons "id" (.vNum 2) (.cons "name" (.vStr "Test") .nil))) rfl rfl,
   by decide⟩

end Schematics
